import Mathlib

/-!
Verification development for the Ripple endpoint-broker subsystem
(`core/main/src/broker/{endpoint_broker,thunder_broker,http_broker}.rs`).

Shallow embedding conventions:
* `serde_json::Value` is embedded as the inductive `Json` (numbers as `Int`;
  no floats appear in the verified paths).
* The `params_json : String` field is embedded by its parse outcome
  (`ParamsJson`): `empty` is the empty string (which also fails every JSON
  parse), `invalid` is a non-empty string that is not valid JSON, and
  `val j` is a string parsing to the JSON value `j`.  This is faithful for
  every consumer in the sources, all of which only ever parse the string.
* The jq filter evaluator (`rules_engine::jq_compile`) is external to the
  broker core and is passed as an opaque pure function argument `Jq`.
* Wire frames built with `json!{...}.to_string()` are embedded as the `Json`
  value itself (field list in the literal's order) rather than its rendering.
* Rust `HashMap`s keyed by `u64`/`String` are embedded as function maps,
  except where the source iterates a map in drain order, where an explicit
  entry list stands for the iteration sequence.
* A Rust panic (a bare `.unwrap()` on a fallible value) is embedded by an
  `Option`-valued result, `none` meaning the panic.
-/

/-- Embedding of `serde_json::Value` (numbers restricted to integers, which
covers every literal in the verified code paths). -/
inductive Json where
  | null : Json
  | bool (b : Bool) : Json
  | num (n : Int) : Json
  | str (s : String) : Json
  | arr (xs : List Json) : Json
  | obj (fields : List (String × Json)) : Json
  deriving Repr

/-- Parse outcome of the `params_json` string (see header conventions). -/
inductive ParamsJson where
  | empty : ParamsJson
  | invalid : ParamsJson
  | val (j : Json) : ParamsJson
  deriving Repr

namespace ParamsJson

/-- `serde_json::from_str::<Vec<Value>>`: succeeds exactly when the string
parses as a JSON array. -/
def parseVec : ParamsJson → Option (List Json)
  | .val (.arr xs) => some xs
  | _ => none

/-- `serde_json::from_str::<Value>`: succeeds exactly when the string is
valid JSON. -/
def parseValue : ParamsJson → Option Json
  | .val j => some j
  | _ => none

/-- `String::is_empty` on the underlying string. -/
def isEmptyStr : ParamsJson → Bool
  | .empty => true
  | _ => false

end ParamsJson

/-- Embedding of `ripple_sdk::utils::error::RippleError` (the variants used
by the broker subsystem). -/
inductive RippleError where
  | InvalidInput
  | ParseError
  | ServiceNotReady
  | ServiceError
  | SendFailure
  | NotAvailable
  deriving Repr, DecidableEq

/-- Modelled from the spec: `RpcRequest` ("§3 Data model: {session_id,
request_id, call_id, method, params_json, protocol, is_subscription,
is_listen, is_unlisten}") — the SDK type `rpc_gateway_api::RpcRequest` is not
under `src/`.  The `ctx` sub-struct is flattened (`ctx.session_id`,
`ctx.method`, `ctx.call_id` become direct fields). -/
structure RpcRequest where
  session_id : String
  request_id : String
  method : String
  call_id : Nat
  params_json : ParamsJson
  is_listen : Bool
  is_unlisten : Bool
  deriving Repr

namespace RpcRequest

/-- Modelled from the spec: "`is_subscription = is_listen || is_unlisten`"
(the SDK predicate `RpcRequest::is_subscription` is not under `src/`). -/
def is_subscription (r : RpcRequest) : Bool := r.is_listen || r.is_unlisten

/-- Modelled from the spec: `RpcRequest::is_listening` (not under `src/`)
reports whether the inbound subscription request asks to listen. -/
def is_listening (r : RpcRequest) : Bool := r.is_listen

end RpcRequest

/-- Embedding of `rules_engine::RuleTransform` (the rules engine source is
not under `src/`; fields are reconstructed from their uses in
`endpoint_broker.rs`: `get_transform_data(Request/Response/Event(_))`,
`transform.request`, `transform.event_decorator_method`). -/
structure RuleTransform where
  request : Option String := none
  response : Option String := none
  event : Option String := none
  event_decorator_method : Option String := none
  deriving Repr

/-- Embedding of `rules_engine::Rule` (fields as used in the broker sources
and listed in the spec's data model). -/
structure Rule where
  «alias» : String
  transform : RuleTransform := {}
  endpoint : Option String := none
  filter : Option String := none
  event_handler : Option String := none
  deriving Repr

/-- Embedding of `endpoint_broker::BrokerRequest` (channels and telemetry
listeners are irrelevant to the verified properties; `workflow_callback`
is kept as a presence flag since the forwarder branches on it). -/
structure BrokerRequest where
  rpc : RpcRequest
  rule : Rule
  subscription_processed : Option Bool := none
  has_workflow_callback : Bool := false
  deriving Repr

/-- Embedding of `rpc_gateway_api::JsonRpcApiResponse`. -/
structure JsonRpcApiResponse where
  jsonrpc : String := "2.0"
  id : Option Nat := none
  result : Option Json := none
  error : Option Json := none
  method : Option String := none
  params : Option Json := none
  deriving Repr

/-- Embedding of `endpoint_broker::BrokerOutput`. -/
structure BrokerOutput where
  data : JsonRpcApiResponse
  deriving Repr

/-- The externally supplied pure filter evaluator
`jq_compile(input, filter, reference) -> Result<Value, RippleError>`. -/
abbrev Jq := Json → String → String → Except RippleError Json

namespace EndpointBroker

/-- Embedding of `EndpointBroker::apply_request_rule`
(`endpoint_broker.rs:902-949`): parse `params_json` as a JSON array, take the
popped last element only when the array has length `> 1` (else `Null`), then
run the rule's request filter over it when present. -/
def apply_request_rule (jq : Jq) (rpc_request : BrokerRequest) :
    Except RippleError Json :=
  match rpc_request.rpc.params_json.parseVec with
  | some params =>
    let last := if params.length > 1 then params.getLastD Json.null else Json.null
    match rpc_request.rule.transform.request with
    | some filter => jq last filter (rpc_request.rpc.method ++ "_request")
    | none => .ok last
  | none => .error .ParseError

/-- Embedding of `EndpointBroker::update_request`
(`endpoint_broker.rs:878-899`): build the JSON-RPC envelope, omitting
`params` exactly when the shaped body is `Null`. -/
def update_request (jq : Jq) (rpc_request : BrokerRequest) :
    Except RippleError Json :=
  match apply_request_rule jq rpc_request with
  | .error e => .error e
  | .ok v =>
    let id := rpc_request.rpc.call_id
    let method := rpc_request.rule.«alias»
    match v with
    | .null =>
      .ok (Json.obj [("jsonrpc", .str "2.0"), ("id", .num id),
                     ("method", .str method)])
    | body =>
      .ok (Json.obj [("jsonrpc", .str "2.0"), ("id", .num id),
                     ("method", .str method), ("params", body)])

end EndpointBroker

/-- The spec's (amended) description of the shaped body: `Null` when the
parsed params array has at most one element, otherwise its last element. -/
def specShapedBody (params : List Json) : Json :=
  if params.length ≤ 1 then Json.null else params.getLastD Json.null

/-- The spec's JSON-RPC request envelope
`{jsonrpc:"2.0", id:call_id, method:alias, params}`, with `params` omitted
exactly when the body is `Null`. -/
def specEnvelope (call_id : Nat) (method : String) (body : Json) : Json :=
  match body with
  | .null => Json.obj [("jsonrpc", .str "2.0"), ("id", .num call_id),
                       ("method", .str method)]
  | b => Json.obj [("jsonrpc", .str "2.0"), ("id", .num call_id),
                   ("method", .str method), ("params", b)]

/-- A trivial filter evaluator used for concrete witnesses (the identity
program); theorems quantify over arbitrary `Jq`. -/
def jqId : Jq := fun v _ _ => Except.ok v

/-- Shaped body produced by `apply_request_rule` agrees with the amended
spec's description of it. -/
theorem specShapedBody_eq_code (params : List Json) :
    specShapedBody params =
      if params.length > 1 then params.getLastD Json.null else Json.null := by
  unfold specShapedBody
  by_cases h : params.length ≤ 1
  · simp [h, Nat.not_lt.mpr h]
  · simp [h, Nat.lt_of_not_le h]

/-- `update_request` wraps any successfully shaped body in the spec's
envelope, omitting `params` exactly on `Null`. -/
theorem update_request_ok (jq : Jq) (r : BrokerRequest) (v : Json)
    (h : EndpointBroker.apply_request_rule jq r = .ok v) :
    EndpointBroker.update_request jq r =
      .ok (specEnvelope r.rpc.call_id r.rule.«alias» v) := by
  unfold EndpointBroker.update_request specEnvelope
  rw [h]
  cases v <;> rfl

/-- `apply_request_rule`, on a params string parsing as an array, computes
the (amended) shaped body, filtered when the rule has a request filter. -/
theorem apply_request_rule_eq (jq : Jq) (r : BrokerRequest)
    (params : List Json) (hp : r.rpc.params_json.parseVec = some params) :
    EndpointBroker.apply_request_rule jq r =
      match r.rule.transform.request with
      | some f => jq (specShapedBody params) f (r.rpc.method ++ "_request")
      | none => .ok (specShapedBody params) := by
  unfold EndpointBroker.apply_request_rule
  rw [hp, specShapedBody_eq_code]

/-- Broker request used in the C1 counterexample: a one-element params
array (the literal `[{"ctx":{}}]`), rule without a request filter. -/
def c1Req : BrokerRequest :=
  { rpc := { session_id := "s1", request_id := "r1", method := "device.id",
             call_id := 5,
             params_json := .val (.arr [Json.obj [("ctx", Json.obj [])]]),
             is_listen := false, is_unlisten := false },
    rule := { «alias» := "DeviceInfo.1.id" } }

/-- C1 counterexample: for a one-element params array the code shapes the
body to `Null` (and therefore omits `params` from the envelope), whereas the
claim says the body is that single element (which is not `Null`). -/
theorem c1_request_shaping_counterexample :
    EndpointBroker.apply_request_rule jqId c1Req = .ok Json.null ∧
    EndpointBroker.update_request jqId c1Req =
      .ok (Json.obj [("jsonrpc", .str "2.0"), ("id", .num 5),
                     ("method", .str "DeviceInfo.1.id")]) ∧
    Json.obj [("ctx", Json.obj [])] ≠ Json.null := by
  refine ⟨rfl, rfl, fun h => Json.noConfusion h⟩

/-- C1 (amended): the outgoing payload is built from `params_json` parsed as
a JSON array; the body is `Null` when the array has at most one element and
otherwise its last element, transformed by the request filter when the rule
has one; the envelope carries `id = call_id` and `method = rule.alias` and
omits `params` exactly when the body is `Null`. -/
theorem c1_request_shaping_amended (jq : Jq) (r : BrokerRequest)
    (params : List Json) (hp : r.rpc.params_json.parseVec = some params) :
    (r.rule.transform.request = none →
      EndpointBroker.update_request jq r =
        .ok (specEnvelope r.rpc.call_id r.rule.«alias» (specShapedBody params))) ∧
    (∀ f v, r.rule.transform.request = some f →
      jq (specShapedBody params) f (r.rpc.method ++ "_request") = .ok v →
      EndpointBroker.update_request jq r =
        .ok (specEnvelope r.rpc.call_id r.rule.«alias» v)) := by
  constructor
  · intro hn
    apply update_request_ok
    rw [apply_request_rule_eq jq r params hp, hn]
  · intro f v hf hjq
    apply update_request_ok
    rw [apply_request_rule_eq jq r params hp, hf]
    exact hjq

/-- Witness for C1 (amended) at a concrete two-element params array. -/
theorem c1_request_shaping_witness :
    EndpointBroker.update_request jqId
      { rpc := { session_id := "s", request_id := "r", method := "m",
                 call_id := 7,
                 params_json := .val (.arr [Json.str "ctx", Json.num 3]),
                 is_listen := false, is_unlisten := false },
        rule := { «alias» := "A.1.b" } } =
      .ok (Json.obj [("jsonrpc", .str "2.0"), ("id", .num 7),
                     ("method", .str "A.1.b"), ("params", Json.num 3)]) := by
  have h := (c1_request_shaping_amended jqId
    { rpc := { session_id := "s", request_id := "r", method := "m",
               call_id := 7,
               params_json := .val (.arr [Json.str "ctx", Json.num 3]),
               is_listen := false, is_unlisten := false },
      rule := { «alias» := "A.1.b" } }
    [Json.str "ctx", Json.num 3] rfl).1 rfl
  exact h

/-- ASCII lowercasing of a single character, as Rust's
`eq_ignore_ascii_case` performs it. -/
def asciiLowerChar (c : Char) : Char :=
  if 'A' ≤ c ∧ c ≤ 'Z' then Char.ofNat (c.toNat + 32) else c

/-- Embedding of `str::eq_ignore_ascii_case`. -/
def eqIgnoreAsciiCase (a b : String) : Bool :=
  decide (a.data.map asciiLowerChar = b.data.map asciiLowerChar)

/-- Remove the first element whose `rpc.method` matches (case-insensitively)
the given method, returning it; embeds the
`iter().position(...)`/`Vec::remove` pattern of `subscribe`/`unsubscribe`
in `thunder_broker.rs`. -/
def removeFirstMatch (method : String) :
    List BrokerRequest → Option BrokerRequest × List BrokerRequest
  | [] => (none, [])
  | x :: xs =>
    if eqIgnoreAsciiCase x.rpc.method method then (some x, xs)
    else
      let (r, ys) := removeFirstMatch method xs
      (r, x :: ys)

/-- The subscription registry `BrokerSubMap = HashMap<String,
Vec<BrokerRequest>>`, embedded as a function map keyed by session id. -/
abbrev SubMap := String → Option (List BrokerRequest)

/-- The request registry `HashMap<u64, BrokerRequest>` of
`EndpointBrokerState`, embedded as a function map keyed by call id. -/
abbrev RequestMap := Nat → Option BrokerRequest

/-- Plugin lifecycle states tracked by the status manager (spec §4.4.3). -/
inductive PluginState where
  | unknown | missing | activating | activated | deactivated
  deriving Repr, DecidableEq

/-- Modelled from the spec: the `StatusManager`
(`thunder/thunder_plugins_status_mgr.rs` is not under `src/`): per-callsign
activation state plus per-callsign pending request lists ("Plugin status.
callsign → {state, pending: list<BrokerRequest>}"). -/
structure StatusManager where
  status : String → Option PluginState
  pending : String → List BrokerRequest

/-- Auxiliary for `splitChar`: structural-recursion split of a character
list on a separator character (keeping empty segments, as Rust's
`str::split` does). -/
def splitCharAux (c : Char) : List Char → List Char → List (List Char)
  | [], acc => [acc.reverse]
  | x :: xs, acc =>
    if x = c then acc.reverse :: splitCharAux c xs []
    else splitCharAux c xs (x :: acc)

/-- Embedding of Rust's `str::split(c)` collected into a vector (equivalent
to `String.splitOn` for a one-character separator, but kernel-reducible). -/
def splitChar (c : Char) (s : String) : List String :=
  (splitCharAux c s.data []).map fun l => ⟨l⟩

/-- Embedding of `Vec<&str>::join(".")`. -/
def joinDot : List String → String
  | [] => ""
  | [x] => x
  | x :: xs => x ++ "." ++ joinDot xs

namespace ThunderBroker

/-- Embedding of `ThunderBroker::get_callsign_and_method_from_alias`
(`thunder_broker.rs:411-416`): split on `'.'`, pop the last segment as the
method, re-join the rest as the callsign. -/
def get_callsign_and_method_from_alias (a : String) : String × Option String :=
  let collection := splitChar '.' a
  (joinDot collection.dropLast, collection.getLast?)

/-- Embedding of `ThunderBroker::subscribe` (`thunder_broker.rs:438-469`):
remove the session's list, displace any entry with the same method
(case-insensitively), push the new request when it is listening, and
re-insert; a session absent from the map gets a fresh one-element list
unconditionally. -/
def subscribe (m : SubMap) (request : BrokerRequest) :
    Option BrokerRequest × SubMap :=
  let app_id := request.rpc.session_id
  let method := request.rpc.method
  let listen := request.rpc.is_listening
  match m app_id with
  | some v =>
    let (response, v') := removeFirstMatch method v
    let v'' := if listen then v' ++ [request] else v'
    (response, fun k => if k = app_id then some v'' else m k)
  | none =>
    (none, fun k => if k = app_id then some [request] else m k)

/-- Embedding of `ThunderBroker::unsubscribe` (`thunder_broker.rs:417-436`):
remove and return the session's entry with the same method, if any. -/
def unsubscribe (m : SubMap) (request : BrokerRequest) :
    Option BrokerRequest × SubMap :=
  let app_id := request.rpc.session_id
  let method := request.rpc.method
  match m app_id with
  | some v =>
    let (r, v') := removeFirstMatch method v
    (r, fun k => if k = app_id then some v' else m k)
  | none => (none, m)

/-- Modelled from the spec: `StatusManager::generate_plugin_status_request`
(not under `src/`); spec §6: `{"method":"Controller.1.status@<callsign>"}`. -/
def generate_plugin_status_request (callsign : String) : Json :=
  Json.obj [("method", .str ("Controller.1.status@" ++ callsign))]

/-- Modelled from the spec: `StatusManager::generate_plugin_activation_request`
(not under `src/`); spec §6:
`{"method":"Controller.1.activate","params":{"callsign":<string>}}`. -/
def generate_plugin_activation_request (callsign : String) : Json :=
  Json.obj [("method", .str "Controller.1.activate"),
            ("params", Json.obj [("callsign", .str callsign)])]

/-- Modelled from the spec: `StatusManager::add_broker_request_to_pending_list`
(not under `src/`): append the request to the callsign's pending list. -/
def add_broker_request_to_pending_list (sm : StatusManager) (callsign : String)
    (request : BrokerRequest) : StatusManager :=
  { sm with pending := fun k =>
      if k = callsign then sm.pending k ++ [request] else sm.pending k }

/-- Embedding of `ThunderBroker::check_and_generate_plugin_activation_request`
(`thunder_broker.rs:471-518`); the status-manager operations it calls are
modelled above.  Returns the control frames to emit (empty means the plugin
is activated and the user's request may proceed) together with the updated
status-manager state. -/
def check_and_generate_plugin_activation_request (sm : StatusManager)
    (rpc_request : BrokerRequest) :
    Except RippleError (List Json) × StatusManager :=
  let (callsign, method) :=
    get_callsign_and_method_from_alias rpc_request.rule.«alias»
  match method with
  | none => (.error .InvalidInput, sm)
  | some _ =>
    match sm.status callsign with
    | none =>
      let sm' := add_broker_request_to_pending_list sm callsign rpc_request
      (.ok [generate_plugin_status_request callsign], sm')
    | some st =>
      if st = .missing then (.error .ServiceError, sm)
      else if st = .activating then (.error .ServiceNotReady, sm)
      else if st ≠ .activated then
        let sm' := add_broker_request_to_pending_list sm callsign rpc_request
        (.ok [generate_plugin_activation_request callsign], sm')
      else (.ok [], sm)

/-- The `{callsign}.register` wire frame emitted by `prepare_request`
(`thunder_broker.rs:569-582`). -/
def register_frame (callsign method : String) (id : Nat) : Json :=
  Json.obj [("jsonrpc", .str "2.0"), ("id", .num id),
            ("method", .str (callsign ++ ".register")),
            ("params", Json.obj [("event", .str method),
                                 ("id", .str (toString id))])]

/-- The `{callsign}.unregister` wire frame emitted by `prepare_request`
(`thunder_broker.rs:553-566` and `590-601`). -/
def unregister_frame (callsign method : String) (id : Nat) : Json :=
  Json.obj [("jsonrpc", .str "2.0"), ("id", .num id),
            ("method", .str (callsign ++ ".unregister")),
            ("params", Json.obj [("event", .str method),
                                 ("id", .str (toString id))])]

/-- Embedding of `ThunderBroker::prepare_request`
(`thunder_broker.rs:538-609`).  The outer `Option` models the
`method.unwrap()` panic (`none`), which is unreachable since `split` never
yields an empty vector.  Returns the frames to send and the updated
subscription map. -/
def prepare_request (jq : Jq) (m : SubMap) (rpc_request : BrokerRequest) :
    Option (Except RippleError (List Json) × SubMap) :=
  let id := rpc_request.rpc.call_id
  let (callsign, methodOpt) :=
    get_callsign_and_method_from_alias rpc_request.rule.«alias»
  match methodOpt with
  | none => none
  | some method =>
    if rpc_request.rpc.is_subscription && !rpc_request.rpc.is_unlisten then
      let listen := rpc_request.rpc.is_listening
      let (cleanup, m') := subscribe m rpc_request
      let unregs :=
        match cleanup with
        | some c => [unregister_frame callsign method c.rpc.call_id]
        | none => []
      let regs := if listen then [register_frame callsign method id] else []
      some (.ok (unregs ++ regs), m')
    else if rpc_request.rpc.is_unlisten then
      let (cleanup, m') := unsubscribe m rpc_request
      let unregs :=
        match cleanup with
        | some c => [unregister_frame callsign method c.rpc.call_id]
        | none => []
      some (.ok unregs, m')
    else
      match EndpointBroker.update_request jq rpc_request with
      | .ok s => some (.ok [s], m)
      | .error e => some (.error e, m)

/-- Per-element walk of the composite-registration loop
(`thunder_broker.rs:295-301`): each params element must be an object
(`as_object().unwrap()`), and each `"response"` key registers
`call_id → rpc`; `none` models the panic on a non-object element. -/
def composite_regs_of_elems (request : BrokerRequest) :
    List Json → Option (List (Nat × RpcRequest))
  | [] => some []
  | .obj fields :: rest =>
    let regs := fields.filterMap fun kv =>
      if kv.1 = "response" then some (request.rpc.call_id, request.rpc)
      else none
    match composite_regs_of_elems request rest with
    | some more => some (regs ++ more)
    | none => none
  | _ :: _ => none

/-- Embedding of the raw composite-registration block of the send path
(`thunder_broker.rs:292-302`): when `params_json` is non-empty it is parsed
with `.unwrap()` and walked as an array of objects with `.unwrap()` on both
accesses; `none` models the panic, `some regs` the composite-table
registrations performed.  In the source this block sits inside the `Ok` arm
of `prepare_request`, so it is only reached after `prepare_request`
succeeds — `thunder_send_step` below composes the two as the program
does. -/
def composite_registration_step (request : BrokerRequest) :
    Option (List (Nat × RpcRequest)) :=
  if request.rpc.params_json.isEmptyStr then some []
  else
    match request.rpc.params_json.parseValue with
    | none => none
    | some j =>
      match j with
      | .arr xs => composite_regs_of_elems request xs
      | _ => none

/-- Outcome of the request arm of `start`'s select loop once the plugin is
activated (`thunder_broker.rs:283-317`). -/
inductive SendOutcome where
  /-- `prepare_request` failed; `send_error` pushes an error response. -/
  | errorSent (e : RippleError)
  /-- the composite-registration block hit a bare `.unwrap()`. -/
  | panicked
  /-- composite registrations performed and the prepared frames sent. -/
  | sent (regs : List (Nat × RpcRequest)) (frames : List Json)
  deriving Repr

/-- Embedding of the prepare-then-send slice of the request arm
(`thunder_broker.rs:283-317`): `prepare_request` runs first; only in its
`Ok` arm does the composite-registration block (`292-302`) execute, before
the prepared frames are fed to the socket; a `prepare_request` error is
turned into an error response instead.  The outer `Option` is
`prepare_request`'s unreachable `method.unwrap()` panic. -/
def thunder_send_step (jq : Jq) (m : SubMap) (request : BrokerRequest) :
    Option (SendOutcome × SubMap) :=
  match prepare_request jq m request with
  | none => none
  | some (.error e, m') => some (.errorSent e, m')
  | some (.ok frames, m') =>
    match composite_registration_step request with
    | none => some (.panicked, m')
    | some regs => some (.sent regs frames, m')

/-- Insert-or-replace into the entry list standing for
`reconnect_request.sub_map` (a `HashMap::insert`). -/
def submapInsert (m : List (String × List BrokerRequest))
    (kv : String × List BrokerRequest) : List (String × List BrokerRequest) :=
  if m.any (fun p => p.1 = kv.1) then
    m.map (fun p => if p.1 = kv.1 then kv else p)
  else m ++ [kv]

/-- Embedding of the reconnect block (`thunder_broker.rs:352-359`): the
drained current subscription map (given in drain order) is copied into the
connect request's original `sub_map` — but through `.drain().take(1)`, so
only the first drained entry is carried. -/
def reconnect_submap (initial : List (String × List BrokerRequest))
    (drained : List (String × List BrokerRequest)) :
    List (String × List BrokerRequest) :=
  (drained.take 1).foldl submapInsert initial

end ThunderBroker

namespace EndpointBroker

/-- Embedding of `EndpointBrokerState::get_request`
(`endpoint_broker.rs:439-450`), the spec's `get_and_consume`: look up the
id; absent ids yield `InvalidInput` and leave the registry untouched;
present entries are returned, and removed exactly when the request is not a
subscription. -/
def get_request (state : RequestMap) (id : Nat) :
    Except RippleError BrokerRequest × RequestMap :=
  match state id with
  | none => (.error .InvalidInput, state)
  | some result =>
    if !result.rpc.is_subscription then
      (.ok result, fun k => if k = id then none else state k)
    else
      (.ok result, state)

/-- Rust `derive(Debug)` rendering of `RippleError`, used by
`BrokerCallback::send_error`'s `format!("Error with {:?}", error)`. -/
def rippleErrorDebug : RippleError → String
  | .InvalidInput => "InvalidInput"
  | .ParseError => "ParseError"
  | .ServiceNotReady => "ServiceNotReady"
  | .ServiceError => "ServiceError"
  | .SendFailure => "SendFailure"
  | .NotAvailable => "NotAvailable"

/-- Embedding of `BrokerCallback::send_error` (`endpoint_broker.rs:271-287`):
a JSON-RPC error response with the standard invalid-params code (−32602)
and `id = call_id`. -/
def send_error_response (request : BrokerRequest) (e : RippleError) :
    JsonRpcApiResponse :=
  { jsonrpc := "2.0", id := some request.rpc.call_id,
    error := some (Json.obj
      [("code", .num (-32602)),
       ("message", .str ("Error with " ++ rippleErrorDebug e)),
       ("data", Json.null)]),
    result := none, method := none, params := none }

/-- Embedding of the `From<BrokerRequest> for JsonRpcApiResponse` conversion
(`endpoint_broker.rs:176-187`) used by `handle_brokerage` to synthesize the
local unlisten acknowledgement from the request (`rpc.into()`). -/
def rpc_to_response (r : RpcRequest) : JsonRpcApiResponse :=
  { jsonrpc := "2.0", id := some r.call_id, result := none, error := none,
    method := none, params := none }

/-- Outcome of an `mpsc` channel send. -/
inductive ChannelSend where
  | succeeds | fails
  deriving Repr, DecidableEq

/-- Embedding of the asynchronous send task spawned by `handle_brokerage`
(`endpoint_broker.rs:791-822`): for an unlisten request the request goes to
the thunder sender (when one exists) and a local acknowledgement or error is
emitted depending on the channel-send outcome; other requests go to the
matched broker sender, emitting an error only on send failure.  Returns the
responses pushed through the default callback. -/
def handle_brokerage_send_task (request : BrokerRequest)
    (thunder : Option ChannelSend) (broker_send : ChannelSend) :
    List JsonRpcApiResponse :=
  if request.rpc.is_unlisten then
    match thunder with
    | some .succeeds => [rpc_to_response request.rpc]
    | some .fails => [send_error_response request .SendFailure]
    | none => []
  else
    match broker_send with
    | .succeeds => []
    | .fails => [send_error_response request .SendFailure]

end EndpointBroker

namespace HttpBroker

/-- A backend HTTP reply: status code plus the body's JSON parse outcome
(`none` when the body bytes are not valid JSON). -/
structure HttpReply where
  status : Nat
  body : Option Json

/-- Modelled from the spec's wire format (§6): deserializing a JSON value
into `JsonRpcApiResponse` (the serde derive lives in the SDK, not under
`src/`): an object with a string `jsonrpc` field and optional typed
`id`/`result`/`error`/`method`/`params` fields. -/
def decode_jsonrpc_response (j : Json) : Option JsonRpcApiResponse :=
  match j with
  | .obj fields =>
    match fields.lookup "jsonrpc" with
    | some (.str v) =>
      let idv : Option Nat :=
        match fields.lookup "id" with
        | some (.num n) => if n < 0 then none else some n.toNat
        | _ => none
      let methodv : Option String :=
        match fields.lookup "method" with
        | some (.str m) => some m
        | _ => none
      some { jsonrpc := v, id := idv, result := fields.lookup "result",
             error := fields.lookup "error", method := methodv,
             params := fields.lookup "params" }
    | _ => none
  | _ => none

/-- Embedding of the per-request loop body of `HttpBroker::get_broker`
(`http_broker.rs:43-86`).  A non-2xx `status` is only logged
(`error!("Error in server")`); the body is then processed identically to the
2xx case: parsed as a JSON-RPC response when `endpoint.is_jsonrpc`, else
wrapped by `handle_non_jsonrpc_response` (`endpoint_broker.rs:1373-1405`)
into a synthetic response with `id = call_id` and, for subscriptions, the
`"{call_id}.{method}"` event method.  Returns the outputs emitted to the
forwarder (`none` reply = transport failure, nothing emitted). -/
def http_broker_step (jq : Jq) (request : BrokerRequest) (is_json_rpc : Bool)
    (reply : Option HttpReply) : List JsonRpcApiResponse :=
  match EndpointBroker.update_request jq request with
  | .error _ => []
  | .ok _ =>
    match reply with
    | none => []
    | some v =>
      if is_json_rpc then
        match v.body.bind decode_jsonrpc_response with
        | some resp => [resp]
        | none => []
      else
        match v.body with
        | some j =>
          [{ jsonrpc := "2.0", id := some request.rpc.call_id,
             method :=
               if request.rpc.is_subscription then
                 some (toString request.rpc.call_id ++ "." ++ request.rpc.method)
               else none,
             result := some j, error := none, params := none }]
        | none => []

end HttpBroker

/-- Embedding of Rust's `str::parse::<u64>`: an optional leading `'+'`,
then one or more ASCII digits, with the value required to fit in 64 bits. -/
def rustParseU64 (s : String) : Option Nat :=
  let t := match s.data with
    | '+' :: rest => rest
    | l => l
  if t.isEmpty then none
  else if t.all Char.isDigit then
    let n := t.foldl (fun a c => a * 10 + (c.toNat - 48)) 0
    if n < 2 ^ 64 then some n else none
  else none

namespace BrokerOutputForwarder

/-- Embedding of `BrokerOutput::get_event` (`endpoint_broker.rs:312-322`):
the first dot-separated token of `method`, parsed as `u64`. -/
def get_event (o : BrokerOutput) : Option Nat :=
  match o.data.method with
  | some e =>
    match (splitChar '.' e).head? with
    | some v => rustParseU64 v
    | none => none
  | none => none

/-- Modelled: `serde_json::to_value` of a `JsonRpcApiResponse` (the serde
derive lives in the SDK, not under `src/`): an object holding the present
fields, which `apply_response` feeds to the filter ("run the whole JSON-RPC
response object through the filter", spec §4.6). -/
def encode_response (r : JsonRpcApiResponse) : Json :=
  Json.obj ([("jsonrpc", Json.str r.jsonrpc)]
    ++ (match r.id with | some i => [("id", Json.num i)] | none => [])
    ++ (match r.result with | some v => [("result", v)] | none => [])
    ++ (match r.error with | some v => [("error", v)] | none => [])
    ++ (match r.method with | some m => [("method", Json.str m)] | none => [])
    ++ (match r.params with | some v => [("params", v)] | none => []))

/-- Embedding of `apply_response` (`endpoint_broker.rs:1447-1487`): run the
whole response object through the filter; a filter output object with a
top-level `error` moves into the response's `error` (clearing `result`),
otherwise the output becomes `result` (clearing `error`); filter errors land
in `error` as a string. -/
def apply_response (jq : Jq) (result_response_filter : String)
    (methodName : String) (response : JsonRpcApiResponse) :
    JsonRpcApiResponse :=
  match jq (encode_response response) result_response_filter
      (methodName ++ "_response") with
  | .ok jq_out =>
    match jq_out with
    | .obj fields =>
      match fields.lookup "error" with
      | some err => { response with error := some err, result := none }
      | none => { response with result := some jq_out, error := none }
    | _ => { response with result := some jq_out, error := none }
  | .error e =>
    { response with
      error := some (Json.str (EndpointBroker.rippleErrorDebug e)) }

/-- Embedding of `apply_rule_for_event` (`endpoint_broker.rs:1489-1519`):
replace `result` with the event filter's output when it compiles, leave the
response alone otherwise. -/
def apply_rule_for_event (jq : Jq) (result : Json) (methodName : String)
    (filter : String) (response : JsonRpcApiResponse) : JsonRpcApiResponse :=
  match jq result filter (methodName ++ "_event") with
  | .ok r => { response with result := some r }
  | .error _ => response

/-- Embedding of `apply_filter` (`endpoint_broker.rs:1521-1537`): evaluate
the rule's match filter against the event result; `null` drops the event,
a boolean decides, any other value hits `as_bool().unwrap()` (`none` models
that panic), and a filter error falls through to `true`. -/
def apply_filter (jq : Jq) (rule : Rule) (result : Json)
    (methodName : String) : Option Bool :=
  match rule.filter with
  | some f =>
    match jq result f (methodName ++ "_event filter") with
    | .ok r =>
      match r with
      | .null => some false
      | .bool b => some b
      | _ => none
    | .error _ => some true
  | none => some true

/-- Modelled from the spec: `JsonRpcApiResponse::update_event_message` (SDK,
not under `src/`) rewrites the delivered method to the client-facing event
method of the originating request (spec §4.6 step 4 and scenario E4). -/
def update_event_message (response : JsonRpcApiResponse) (rpc : RpcRequest) :
    JsonRpcApiResponse :=
  { response with method := some rpc.method }

/-- The composite-`"response"` scan of the apply-response section
(`endpoint_broker.rs:1160-1175`): each string-valued `"response"` entry of
the output's params object runs `apply_response` in turn; the flag records
whether any did. -/
def apply_composite_filters (jq : Jq) (methodName : String) :
    List (String × Json) → JsonRpcApiResponse → Bool × JsonRpcApiResponse
  | [], resp => (false, resp)
  | (k, v) :: rest, resp =>
    let (applied, resp') :=
      match v with
      | .str s =>
        if k = "response" then (true, apply_response jq s methodName resp)
        else (false, resp)
      | _ => (false, resp)
    let (appliedRest, resp'') := apply_composite_filters jq methodName rest resp'
    (applied || appliedRest, resp'')

/-- Embedding of the apply-response section of `start_forwarder`
(`endpoint_broker.rs:1157-1187`): composite `"response"` filters from the
output's params take precedence; otherwise the rule's response filter runs;
with neither, a missing `result`/`error` becomes `result = null`. -/
def forwarder_apply_response_section (jq : Jq) (output : BrokerOutput)
    (broker_request : BrokerRequest) (response : JsonRpcApiResponse) :
    JsonRpcApiResponse :=
  let methodName := broker_request.rpc.method
  let (applied, response) :=
    match output.data.params with
    | some (.obj fields) => apply_composite_filters jq methodName fields response
    | _ => (false, response)
  if applied then response
  else
    match broker_request.rule.transform.response with
    | some filter => apply_response jq filter methodName response
    | none =>
      match response.result, response.error with
      | none, none => { response with result := some Json.null }
      | _, _ => response

/-- How the forwarder disposes of one event-classified output.  The
`spawnedEventHandler` and `spawnedDecorator` outcomes carry the response
their spawned tasks deliver to the session, except that in both cases
`result` may further be replaced by the external call's value
(`process_internal_main_request` resp. the decorator function), which no
property here touches. -/
inductive EventDelivery where
  | notEvent
  | requestNotFound
  | spawnedEventHandler (handlerMethod : String) (resp : JsonRpcApiResponse)
  | spawnedDecorator (decoratorMethod : String) (resp : JsonRpcApiResponse)
  | dropped
  | filterUnwrapFailure
  | sentToWorkflowCallback (resp : JsonRpcApiResponse)
  | delivered (resp : JsonRpcApiResponse)
  deriving Repr

/-- Embedding of the event-relevant slice of `start_forwarder`'s loop body
(`endpoint_broker.rs:993-1269`): classify via `get_event`, look the event id
up in the request registry (`get_request`, subscription-preserving), then
run the source's branches in order.  `registered` stands for the external
`EventManagementUtility::get_function` table (its module is not under
`src/`): a rule's `event_decorator_method` short-circuits only when a
function is registered under that name (`endpoint_broker.rs:1079-1119`);
otherwise the code logs the failure and falls through to normal delivery
(`1120-1131`).  The event-handler task (`handle_event`,
`endpoint_broker.rs:1291-1371`) sets `id` and applies
`update_event_message`; the decorator task (`1094-1118`) sets `id` but does
NOT rewrite the method.  Normal deliveries outside the workflow path
reassign `id` to the originating request's `call_id` and rewrite the method
via `update_event_message`.  Outputs not classified as events are out of
this slice (`notEvent`). -/
def forwarder_event_dispatch (registered : String → Bool) (jq : Jq)
    (broker_request : BrokerRequest) (output : BrokerOutput) : EventDelivery :=
  let rpc := broker_request.rpc
  let response := output.data
  match response.result with
  | some result =>
    match broker_request.rule.event_handler with
    | some handlerMethod =>
      .spawnedEventHandler handlerMethod
        (update_event_message { response with id := some rpc.call_id } rpc)
    | none =>
      let response :=
        match broker_request.rule.transform.event with
        | some filter =>
          apply_rule_for_event jq result rpc.method filter response
        | none => response
      match apply_filter jq broker_request.rule result rpc.method with
      | none => .filterUnwrapFailure
      | some false => .dropped
      | some true =>
        let deliverNormally : EventDelivery :=
          let response := { response with id := some rpc.call_id }
          if broker_request.has_workflow_callback then
            .sentToWorkflowCallback response
          else
            .delivered (update_event_message response rpc)
        match broker_request.rule.transform.event_decorator_method with
        | some d =>
          if registered d then
            .spawnedDecorator d { response with id := some rpc.call_id }
          else deliverNormally
        | none => deliverNormally
  | none =>
    let response :=
      forwarder_apply_response_section jq output broker_request response
    let response := { response with id := some rpc.call_id }
    if broker_request.has_workflow_callback then
      .sentToWorkflowCallback response
    else
      .delivered (update_event_message response rpc)

/-- The per-output driver of the slice: classification, registry lookup,
then dispatch on the found request. -/
def start_forwarder_event_step (registered : String → Bool) (jq : Jq)
    (state : RequestMap) (output : BrokerOutput) :
    EventDelivery × RequestMap :=
  match get_event output with
  | none => (.notEvent, state)
  | some id =>
    match EndpointBroker.get_request state id with
    | (.error _, st') => (.requestNotFound, st')
    | (.ok broker_request, st') =>
      (forwarder_event_dispatch registered jq broker_request output, st')

/-- The event transform only replaces `result`; the delivered method is
untouched by it. -/
theorem apply_rule_for_event_method (jq : Jq) (result : Json)
    (methodName filter : String) (response : JsonRpcApiResponse) :
    (apply_rule_for_event jq result methodName filter response).method =
      response.method := by
  unfold apply_rule_for_event
  cases jq result filter (methodName ++ "_event") <;> rfl

end BrokerOutputForwarder

/-- C5: for a stored non-subscription request, `get_and_consume`
(`get_request`) returns it and removes it — `Some` exactly once, the removed
id erroring (and leaving the registry unchanged) ever after; a stored
subscription entry (`is_subscription` and not unlisten) is returned but
kept; an absent id yields nothing and leaves the registry unchanged. -/
theorem c5_get_and_consume_single_shot (state : RequestMap) (id : Nat) :
    (∀ r, state id = some r → r.rpc.is_subscription = false →
      EndpointBroker.get_request state id =
        (.ok r, fun k => if k = id then none else state k) ∧
      EndpointBroker.get_request (fun k => if k = id then none else state k) id =
        (.error .InvalidInput, fun k => if k = id then none else state k)) ∧
    (∀ r, state id = some r → r.rpc.is_subscription = true →
      r.rpc.is_unlisten = false →
      EndpointBroker.get_request state id = (.ok r, state)) ∧
    (state id = none →
      EndpointBroker.get_request state id = (.error .InvalidInput, state)) := by
  refine ⟨?_, ?_, ?_⟩
  · intro r h hs
    constructor
    · unfold EndpointBroker.get_request
      rw [h]
      simp [hs]
    · unfold EndpointBroker.get_request
      simp
  · intro r h hs _
    unfold EndpointBroker.get_request
    rw [h]
    simp [hs]
  · intro h
    unfold EndpointBroker.get_request
    rw [h]

/-- Concrete non-subscription request stored under id 3 for the C5 witness. -/
def c5Req : BrokerRequest :=
  { rpc := { session_id := "s", request_id := "q", method := "device.id",
             call_id := 3, params_json := .empty,
             is_listen := false, is_unlisten := false },
    rule := { «alias» := "DeviceInfo.1.id" } }

/-- Registry holding only `c5Req` under id 3. -/
def c5Map : RequestMap := fun k => if k = 3 then some c5Req else none

/-- Witness for C5 at the concrete one-entry registry. -/
theorem c5_get_and_consume_witness :
    EndpointBroker.get_request c5Map 3 =
      (.ok c5Req, fun k => if k = 3 then none else c5Map k) ∧
    EndpointBroker.get_request (fun k => if k = 3 then none else c5Map k) 3 =
      (.error .InvalidInput, fun k => if k = 3 then none else c5Map k) :=
  (c5_get_and_consume_single_shot c5Map 3).1 c5Req rfl rfl

/-- Request whose rule aliases into the `Xyz` callsign, used against an
`Activating` plugin state for C2. -/
def c2Req : BrokerRequest :=
  { rpc := { session_id := "sC", request_id := "q2", method := "xyz.foo",
             call_id := 11, params_json := .empty,
             is_listen := false, is_unlisten := false },
    rule := { «alias» := "Xyz.foo" } }

/-- Status-manager state with callsign `Xyz` in the `Activating` state and
an empty pending list. -/
def c2Sm : StatusManager :=
  { status := fun k => if k = "Xyz" then some .activating else none,
    pending := fun _ => [] }

/-- C2: dispatching against an `Activating` callsign fails the send with
`ServiceNotReady` and emits nothing — but, contrary to the claim (and to the
code's own log line "request is now in pending list"), the request is NOT
enqueued: the status-manager state, pending list included, is returned
unchanged. -/
theorem c2_activating_not_enqueued :
    ThunderBroker.check_and_generate_plugin_activation_request c2Sm c2Req =
      (.error .ServiceNotReady, c2Sm) ∧
    c2Sm.pending "Xyz" = [] := by
  exact ⟨rfl, rfl⟩

/-- An active subscription of session `s1` (present before the drop). -/
def c3Sub1 : BrokerRequest :=
  { rpc := { session_id := "s1", request_id := "qa", method := "events.onFoo",
             call_id := 21, params_json := .empty,
             is_listen := true, is_unlisten := false },
    rule := { «alias» := "Foo.1.changed" } }

/-- An active subscription of session `s2` (present before the drop). -/
def c3Sub2 : BrokerRequest :=
  { rpc := { session_id := "s2", request_id := "qb", method := "events.onBar",
             call_id := 22, params_json := .empty,
             is_listen := true, is_unlisten := false },
    rule := { «alias» := "Bar.1.changed" } }

/-- C3: the reconnection request does NOT carry the entire subscription map:
with two sessions subscribed before the drop, `.drain().take(1)` copies only
the first drained entry into the reconnect request's sub_map — session
`s2`'s subscription (call_id 22) is absent after reconnect. -/
theorem c3_reconnect_submap_take_one :
    ThunderBroker.reconnect_submap [] [("s1", [c3Sub1]), ("s2", [c3Sub2])] =
      [("s1", [c3Sub1])] ∧
    (ThunderBroker.reconnect_submap []
        [("s1", [c3Sub1]), ("s2", [c3Sub2])]).lookup "s2" = none := by
  exact ⟨rfl, rfl⟩

/-- Unlisten request used in the C4 counterexample. -/
def c4Req : BrokerRequest :=
  { rpc := { session_id := "s4", request_id := "q4", method := "events.onFoo",
             call_id := 31, params_json := .empty,
             is_listen := false, is_unlisten := true },
    rule := { «alias» := "Foo.1.changed" } }

/-- C4 counterexample: when the thunder channel send fails, the dispatcher
emits an invalid-params error response for the unlisten request — not the
local success acknowledgement the claim promises "regardless of the backend
outcome". -/
theorem c4_unlisten_ack_counterexample :
    EndpointBroker.handle_brokerage_send_task c4Req
        (some .fails) .succeeds =
      [EndpointBroker.send_error_response c4Req .SendFailure] ∧
    (EndpointBroker.send_error_response c4Req .SendFailure).error ≠ none ∧
    (EndpointBroker.rpc_to_response c4Req.rpc).error = none := by
  refine ⟨rfl, ?_, rfl⟩
  intro h
  exact Option.noConfusion h

/-- C4 (amended): for an unlisten request the dispatcher synthesizes the
local success acknowledgement exactly when a thunder sender exists and its
channel send succeeds; a failed send emits an invalid-params error response
instead, and a missing thunder sender emits nothing. -/
theorem c4_unlisten_ack_amended (request : BrokerRequest)
    (thunder : Option EndpointBroker.ChannelSend)
    (broker_send : EndpointBroker.ChannelSend)
    (h : request.rpc.is_unlisten = true) :
    (EndpointBroker.handle_brokerage_send_task request thunder broker_send =
        [EndpointBroker.rpc_to_response request.rpc] ↔
      thunder = some .succeeds) ∧
    (thunder = some .fails →
      EndpointBroker.handle_brokerage_send_task request thunder broker_send =
        [EndpointBroker.send_error_response request .SendFailure]) ∧
    (thunder = none →
      EndpointBroker.handle_brokerage_send_task request thunder broker_send
        = []) := by
  unfold EndpointBroker.handle_brokerage_send_task
  rcases thunder with _ | cs
  · simp [h]
  · cases cs
    · simp [h]
    · simp [h, EndpointBroker.send_error_response, EndpointBroker.rpc_to_response]

/-- Witness for C4 (amended): with a live thunder sender the concrete
unlisten request gets its local acknowledgement. -/
theorem c4_unlisten_ack_witness :
    EndpointBroker.handle_brokerage_send_task c4Req
        (some .succeeds) .succeeds =
      [EndpointBroker.rpc_to_response c4Req.rpc] :=
  ((c4_unlisten_ack_amended c4Req (some .succeeds) .succeeds rfl).1).mpr rfl

/-- Request dispatched through the HTTP driver in the C9 counterexample. -/
def c9Req : BrokerRequest :=
  { rpc := { session_id := "s9", request_id := "q9", method := "device.id",
             call_id := 51, params_json := .val (.arr []),
             is_listen := false, is_unlisten := false },
    rule := { «alias» := "DeviceInfo.1.id" } }

/-- The well-formed JSON-RPC body of the backend's 500 reply in C9. -/
def c9Body : Json :=
  Json.obj [("jsonrpc", .str "2.0"), ("id", .num 51), ("result", .str "ok")]

/-- C9 counterexample: on a non-2xx backend reply (status 500) the HTTP
driver emits the parsed body as a success payload — the forwarded output has
no `error` field at all, so no invalid-params error response is emitted. -/
theorem c9_http_non2xx_counterexample :
    HttpBroker.http_broker_step jqId c9Req true
        (some { status := 500, body := some c9Body }) =
      [{ jsonrpc := "2.0", id := some 51, result := some (.str "ok"),
         error := none, method := none, params := none }] ∧
    ∀ resp ∈ HttpBroker.http_broker_step jqId c9Req true
        (some { status := 500, body := some c9Body }), resp.error = none := by
  refine ⟨rfl, ?_⟩
  intro resp hresp
  have h : resp = { jsonrpc := "2.0", id := some 51,
                    result := some (Json.str "ok"), error := none,
                    method := none, params := none } := by
    have hl : HttpBroker.http_broker_step jqId c9Req true
        (some { status := 500, body := some c9Body }) =
      [{ jsonrpc := "2.0", id := some 51, result := some (.str "ok"),
         error := none, method := none, params := none }] := rfl
    rw [hl] at hresp
    simpa using hresp
  rw [h]

/-- C9 (amended): the HTTP driver's emitted outputs do not depend on the
backend status code at all — a non-2xx reply is only logged and its body is
processed exactly like a 2xx body (no invalid-params error response). -/
theorem c9_http_status_independent (jq : Jq) (request : BrokerRequest)
    (is_json_rpc : Bool) (s1 s2 : Nat) (body : Option Json) :
    HttpBroker.http_broker_step jq request is_json_rpc
        (some { status := s1, body := body }) =
      HttpBroker.http_broker_step jq request is_json_rpc
        (some { status := s2, body := body }) := rfl

/-- The element walk of the composite-registration loop survives exactly
when every params element is a JSON object. -/
theorem composite_regs_of_elems_isSome (request : BrokerRequest)
    (xs : List Json) :
    (ThunderBroker.composite_regs_of_elems request xs).isSome = true ↔
      ∀ x ∈ xs, ∃ fs, x = Json.obj fs := by
  induction xs with
  | nil => simp [ThunderBroker.composite_regs_of_elems]
  | cons x rest ih =>
    cases x with
    | obj fields =>
      unfold ThunderBroker.composite_regs_of_elems
      constructor
      · intro h y hy
        rcases List.mem_cons.mp hy with hy | hy
        · exact ⟨fields, hy⟩
        · refine (ih.mp ?_) y hy
          rcases hrec : ThunderBroker.composite_regs_of_elems request rest with _ | more
          · rw [hrec] at h; simp at h
          · simp [hrec]
      · intro h
        have := ih.mpr fun y hy => h y (List.mem_cons_of_mem _ hy)
        rcases hrec : ThunderBroker.composite_regs_of_elems request rest with _ | more
        · rw [hrec] at this; simp at this
        · simp [hrec]
    | null =>
      simp only [ThunderBroker.composite_regs_of_elems, Option.isSome_none]
      constructor
      · intro h; exact absurd h (by simp)
      · intro h
        rcases h Json.null (List.mem_cons_self _ _) with ⟨fs, hfs⟩
        exact absurd hfs (by intro hh; exact Json.noConfusion hh)
    | bool b =>
      simp only [ThunderBroker.composite_regs_of_elems, Option.isSome_none]
      constructor
      · intro h; exact absurd h (by simp)
      · intro h
        rcases h (Json.bool b) (List.mem_cons_self _ _) with ⟨fs, hfs⟩
        exact absurd hfs (by intro hh; exact Json.noConfusion hh)
    | num n =>
      simp only [ThunderBroker.composite_regs_of_elems, Option.isSome_none]
      constructor
      · intro h; exact absurd h (by simp)
      · intro h
        rcases h (Json.num n) (List.mem_cons_self _ _) with ⟨fs, hfs⟩
        exact absurd hfs (by intro hh; exact Json.noConfusion hh)
    | str s =>
      simp only [ThunderBroker.composite_regs_of_elems, Option.isSome_none]
      constructor
      · intro h; exact absurd h (by simp)
      · intro h
        rcases h (Json.str s) (List.mem_cons_self _ _) with ⟨fs, hfs⟩
        exact absurd hfs (by intro hh; exact Json.noConfusion hh)
    | arr ys =>
      simp only [ThunderBroker.composite_regs_of_elems, Option.isSome_none]
      constructor
      · intro h; exact absurd h (by simp)
      · intro h
        rcases h (Json.arr ys) (List.mem_cons_self _ _) with ⟨fs, hfs⟩
        exact absurd hfs (by intro hh; exact Json.noConfusion hh)

/-- The raw composite-registration block completes without panicking
exactly when `params_json` is the empty string or parses as a JSON array
all of whose elements are JSON objects. -/
theorem composite_registration_step_isSome (request : BrokerRequest) :
    (ThunderBroker.composite_registration_step request).isSome = true ↔
      (request.rpc.params_json.isEmptyStr = true ∨
        ∃ xs, request.rpc.params_json.parseValue = some (Json.arr xs) ∧
          ∀ x ∈ xs, ∃ fs, x = Json.obj fs) := by
  unfold ThunderBroker.composite_registration_step
  cases hp : request.rpc.params_json with
  | empty => simp [ParamsJson.isEmptyStr, ParamsJson.parseValue]
  | invalid => simp [ParamsJson.isEmptyStr, ParamsJson.parseValue]
  | val j =>
    cases j with
    | arr xs =>
      simp [ParamsJson.isEmptyStr, ParamsJson.parseValue,
        composite_regs_of_elems_isSome]
    | null => simp [ParamsJson.isEmptyStr, ParamsJson.parseValue]
    | bool b => simp [ParamsJson.isEmptyStr, ParamsJson.parseValue]
    | num n => simp [ParamsJson.isEmptyStr, ParamsJson.parseValue]
    | str s => simp [ParamsJson.isEmptyStr, ParamsJson.parseValue]
    | obj fs => simp [ParamsJson.isEmptyStr, ParamsJson.parseValue]

/-- Number of entries for a `(session, method)` pair in the subscription
registry (method compared case-insensitively, as the source does). -/
def countPair (m : SubMap) (sid method : String) : Nat :=
  ((m sid).getD []).countP fun x => eqIgnoreAsciiCase x.rpc.method method

/-- The empty subscription registry. -/
def emptySubMap : SubMap := fun _ => none

/-- Unlisten-flavoured subscription request used in the C6 counterexample. -/
def c6Req : BrokerRequest :=
  { rpc := { session_id := "sA", request_id := "q6", method := "events.onFoo",
             call_id := 41, params_json := .empty,
             is_listen := false, is_unlisten := true },
    rule := { «alias» := "Foo.1.changed" } }

/-- C6 counterexample: running `subscribe` on an empty registry with a
subscription request that is NOT a listen (an unlisten) still inserts the
request — afterwards the map holds exactly one entry for the
`(session, method)` pair although the request was not a listen, refuting the
claimed iff. -/
theorem c6_subscribe_counterexample :
    (ThunderBroker.subscribe emptySubMap c6Req).1 = none ∧
    countPair (ThunderBroker.subscribe emptySubMap c6Req).2 "sA"
        "events.onFoo" = 1 ∧
    c6Req.rpc.is_listen = false ∧ c6Req.rpc.is_subscription = true := by
  exact ⟨rfl, rfl, rfl, rfl⟩

/-- Case-insensitive string comparison is reflexive. -/
theorem eqIgnoreAsciiCase_refl (s : String) : eqIgnoreAsciiCase s s = true := by
  simp [eqIgnoreAsciiCase]

/-- The entry displaced by `removeFirstMatch` is the first match. -/
theorem removeFirstMatch_fst (method : String) (v : List BrokerRequest) :
    (removeFirstMatch method v).1 =
      v.find? fun x => eqIgnoreAsciiCase x.rpc.method method := by
  induction v with
  | nil => rfl
  | cons x xs ih =>
    cases h : eqIgnoreAsciiCase x.rpc.method method <;>
      simp [removeFirstMatch, List.find?, h, ih]

/-- When the pair occurs at most once, `removeFirstMatch` leaves no match
behind. -/
theorem removeFirstMatch_count (method : String) (v : List BrokerRequest)
    (h : v.countP (fun x => eqIgnoreAsciiCase x.rpc.method method) ≤ 1) :
    ((removeFirstMatch method v).2).countP
      (fun x => eqIgnoreAsciiCase x.rpc.method method) = 0 := by
  induction v with
  | nil => simp [removeFirstMatch]
  | cons x xs ih =>
    cases hx : eqIgnoreAsciiCase x.rpc.method method
    · have hle : xs.countP (fun x => eqIgnoreAsciiCase x.rpc.method method) ≤ 1 := by
        have := h
        rw [List.countP_cons] at this
        simpa [hx] using this
      simp [removeFirstMatch, hx, List.countP_cons, ih hle]
    · have hz : xs.countP (fun x => eqIgnoreAsciiCase x.rpc.method method) = 0 := by
        have := h
        rw [List.countP_cons] at this
        simp only [hx, if_pos] at this
        omega
      simp [removeFirstMatch, hx, hz]

/-- C6 (amended): assuming the registry's own invariant (at most one entry
per `(session, method)`), after `subscribe` the map holds exactly one entry
for that pair iff the incoming request was a listen OR the session was
absent from the map (in which case even a non-listen is inserted); and
`subscribe` returns the displaced prior entry — the first `(session,method)`
match — when one existed. -/
theorem c6_subscribe_amended (m : SubMap) (req : BrokerRequest)
    (_hsub : req.rpc.is_subscription = true)
    (hwf : countPair m req.rpc.session_id req.rpc.method ≤ 1) :
    (ThunderBroker.subscribe m req).1 =
      (m req.rpc.session_id).bind
        (List.find? fun x => eqIgnoreAsciiCase x.rpc.method req.rpc.method) ∧
    (countPair (ThunderBroker.subscribe m req).2 req.rpc.session_id
        req.rpc.method = 1 ↔
      (req.rpc.is_listen = true ∨ m req.rpc.session_id = none)) := by
  cases hm : m req.rpc.session_id with
  | none =>
    constructor
    · simp [ThunderBroker.subscribe, hm]
    · simp [ThunderBroker.subscribe, countPair, hm, List.countP_cons,
        eqIgnoreAsciiCase_refl]
  | some v =>
    have hcv : v.countP
        (fun x => eqIgnoreAsciiCase x.rpc.method req.rpc.method) ≤ 1 := by
      unfold countPair at hwf
      rw [hm] at hwf
      simpa using hwf
    have h0 := removeFirstMatch_count req.rpc.method v hcv
    constructor
    · simp [ThunderBroker.subscribe, hm, removeFirstMatch_fst]
    · cases hl : req.rpc.is_listen
      · simp [ThunderBroker.subscribe, countPair, hm,
          RpcRequest.is_listening, hl, h0]
      · simp [ThunderBroker.subscribe, countPair, hm,
          RpcRequest.is_listening, hl, List.countP_append,
          List.countP_cons, h0, eqIgnoreAsciiCase_refl]

/-- Earlier listen of session `sB` displaced in the C6 witness. -/
def c6Old : BrokerRequest :=
  { rpc := { session_id := "sB", request_id := "qo", method := "events.onFoo",
             call_id := 3, params_json := .empty,
             is_listen := true, is_unlisten := false },
    rule := { «alias» := "Foo.1.changed" } }

/-- Replacing listen of session `sB` in the C6 witness. -/
def c6New : BrokerRequest :=
  { rpc := { session_id := "sB", request_id := "qn", method := "events.onFoo",
             call_id := 9, params_json := .empty,
             is_listen := true, is_unlisten := false },
    rule := { «alias» := "Foo.1.changed" } }

/-- Registry holding only `c6Old` for session `sB`. -/
def c6Map : SubMap := fun k => if k = "sB" then some [c6Old] else none

/-- Witness for C6 (amended): a second listen for the same pair displaces
the first (returned as prior) and leaves exactly one entry. -/
theorem c6_subscribe_witness :
    (ThunderBroker.subscribe c6Map c6New).1 = some c6Old ∧
    countPair (ThunderBroker.subscribe c6Map c6New).2 "sB"
      "events.onFoo" = 1 := by
  have h := c6_subscribe_amended c6Map c6New rfl (by decide)
  constructor
  · rw [h.1]; rfl
  · exact h.2.mpr (Or.inl rfl)

/-- C7: for a listen request the plugin-aware `prepare_request` first runs
`subscribe`; a displaced prior subscription yields one unregister frame
carrying the prior call_id (as envelope id and `params.id`), followed by one
register frame carrying the new call_id; for an unlisten request it emits
the unregister of the displaced entry exactly when one existed and nothing
otherwise. -/
theorem c7_subscription_wire (jq : Jq) (m : SubMap) (req : BrokerRequest)
    (callsign method : String)
    (hcm : ThunderBroker.get_callsign_and_method_from_alias req.rule.«alias» =
      (callsign, some method)) :
    (req.rpc.is_listen = true → req.rpc.is_unlisten = false →
      ThunderBroker.prepare_request jq m req = some (.ok
        ((match (ThunderBroker.subscribe m req).1 with
          | some c =>
            [ThunderBroker.unregister_frame callsign method c.rpc.call_id]
          | none => []) ++
          [ThunderBroker.register_frame callsign method req.rpc.call_id]),
        (ThunderBroker.subscribe m req).2)) ∧
    (req.rpc.is_unlisten = true →
      ThunderBroker.prepare_request jq m req = some (.ok
        (match (ThunderBroker.unsubscribe m req).1 with
         | some c =>
           [ThunderBroker.unregister_frame callsign method c.rpc.call_id]
         | none => []),
        (ThunderBroker.unsubscribe m req).2)) := by
  constructor
  · intro hl hu
    unfold ThunderBroker.prepare_request
    rw [hcm]
    rcases hs : ThunderBroker.subscribe m req with ⟨cleanup, m2⟩
    simp only [RpcRequest.is_subscription, RpcRequest.is_listening, hl, hu,
      hs, Bool.true_or, Bool.not_false, Bool.and_true, if_true, if_pos]
  · intro hu
    unfold ThunderBroker.prepare_request
    rw [hcm]
    rcases hs : ThunderBroker.unsubscribe m req with ⟨cleanup, m2⟩
    simp only [RpcRequest.is_subscription, hu, Bool.not_true,
      Bool.and_false, Bool.false_eq_true, if_false, if_true, hs, if_pos]

/-- Prior listen of session `sD` (call_id 3) for the C7 witness. -/
def c7Old : BrokerRequest :=
  { rpc := { session_id := "sD", request_id := "qo", method := "events.onFoo",
             call_id := 3, params_json := .empty,
             is_listen := true, is_unlisten := false },
    rule := { «alias» := "Foo.1.changed" } }

/-- Replacing listen of session `sD` (call_id 9) for the C7 witness. -/
def c7New : BrokerRequest :=
  { rpc := { session_id := "sD", request_id := "qn", method := "events.onFoo",
             call_id := 9, params_json := .empty,
             is_listen := true, is_unlisten := false },
    rule := { «alias» := "Foo.1.changed" } }

/-- Registry holding only `c7Old` for session `sD`. -/
def c7Map : SubMap := fun k => if k = "sD" then some [c7Old] else none

/-- Witness for C7: the replacing listen emits the prior unregister
(id 3) then the new register (id 9). -/
theorem c7_subscription_wire_witness :
    ThunderBroker.prepare_request jqId c7Map c7New = some (.ok
      [ThunderBroker.unregister_frame "Foo.1" "changed" 3,
       ThunderBroker.register_frame "Foo.1" "changed" 9],
      (ThunderBroker.subscribe c7Map c7New).2) := by
  have h := (c7_subscription_wire jqId c7Map c7New "Foo.1" "changed" rfl).1
    rfl rfl
  rw [h]
  rfl

/-- Looking up a stored id in the request registry always returns the
stored request (whatever the removal policy does to the map). -/
theorem get_request_found_fst (state : RequestMap) (id : Nat)
    (r : BrokerRequest) (h : state id = some r) :
    (EndpointBroker.get_request state id).1 = .ok r := by
  unfold EndpointBroker.get_request
  rw [h]
  cases hs : r.rpc.is_subscription <;> simp [hs]

/-- Every session delivery of the dispatch carries the originating
request's `call_id` and the method rewritten by `update_event_message`. -/
theorem dispatch_delivered_fields (registered : String → Bool) (jq : Jq)
    (req : BrokerRequest) (output : BrokerOutput) (resp : JsonRpcApiResponse)
    (h : BrokerOutputForwarder.forwarder_event_dispatch registered jq req
      output = .delivered resp) :
    resp.id = some req.rpc.call_id ∧ resp.method = some req.rpc.method := by
  unfold BrokerOutputForwarder.forwarder_event_dispatch at h
  cases houtres : output.data.result <;> simp only [houtres] at h <;>
    repeat' split at h
  all_goals try simp_all [BrokerOutputForwarder.update_event_message]
  all_goals try obtain ⟨-, h⟩ := h
  all_goals exact ⟨rfl, rfl⟩

/-- The event-handler task delivers with the originating `call_id` and the
rewritten method (`handle_event`, `endpoint_broker.rs:1355-1357`). -/
theorem dispatch_event_handler_fields (registered : String → Bool) (jq : Jq)
    (req : BrokerRequest) (output : BrokerOutput) (d : String)
    (resp : JsonRpcApiResponse)
    (h : BrokerOutputForwarder.forwarder_event_dispatch registered jq req
      output = .spawnedEventHandler d resp) :
    resp.id = some req.rpc.call_id ∧ resp.method = some req.rpc.method := by
  unfold BrokerOutputForwarder.forwarder_event_dispatch at h
  cases houtres : output.data.result <;> simp only [houtres] at h <;>
    repeat' split at h
  all_goals try simp_all [BrokerOutputForwarder.update_event_message]
  all_goals try obtain ⟨-, h⟩ := h
  all_goals try subst h
  all_goals exact ⟨rfl, rfl⟩

/-- The registered-decorator task delivers with the originating `call_id`
but the backend method unrewritten (`endpoint_broker.rs:1094-1118` never
calls `update_event_message`). -/
theorem dispatch_decorator_fields (registered : String → Bool) (jq : Jq)
    (req : BrokerRequest) (output : BrokerOutput) (d : String)
    (resp : JsonRpcApiResponse)
    (h : BrokerOutputForwarder.forwarder_event_dispatch registered jq req
      output = .spawnedDecorator d resp) :
    resp.id = some req.rpc.call_id ∧ resp.method = output.data.method := by
  unfold BrokerOutputForwarder.forwarder_event_dispatch at h
  cases houtres : output.data.result <;> simp only [houtres] at h <;>
    repeat' split at h
  all_goals try simp_all [BrokerOutputForwarder.update_event_message,
    BrokerOutputForwarder.apply_rule_for_event_method]
  all_goals try obtain ⟨-, h⟩ := h
  all_goals try subst h
  all_goals refine ⟨rfl, ?_⟩
  all_goals simp [BrokerOutputForwarder.apply_rule_for_event_method]

/-- C8 (amended): an output is classified as an event iff its method is
non-null and the first dot-separated token parses as a `u64`; for such an
output the forwarder keys the request-registry lookup by that integer (not
by `output.id`); every response the slice hands to the session carries
`id = ` the originating request's `call_id`; the method is rewritten to the
client-facing event method on the normal and event-handler paths, but on
the registered-decorator path the backend method is delivered
unrewritten. -/
theorem c8_event_routing_amended :
    (∀ (output : BrokerOutput) (key : Nat),
      BrokerOutputForwarder.get_event output = some key ↔
        ∃ e tok, output.data.method = some e ∧
          (splitChar '.' e).head? = some tok ∧ rustParseU64 tok = some key) ∧
    (∀ (registered : String → Bool) (jq : Jq) (state : RequestMap)
        (output : BrokerOutput) (key : Nat) (req : BrokerRequest),
      BrokerOutputForwarder.get_event output = some key →
      state key = some req →
      (∀ resp st',
        BrokerOutputForwarder.start_forwarder_event_step registered jq state
            output = (.delivered resp, st') →
        resp.id = some req.rpc.call_id ∧
          resp.method = some req.rpc.method) ∧
      (∀ d resp st',
        BrokerOutputForwarder.start_forwarder_event_step registered jq state
            output = (.spawnedEventHandler d resp, st') →
        resp.id = some req.rpc.call_id ∧
          resp.method = some req.rpc.method) ∧
      (∀ d resp st',
        BrokerOutputForwarder.start_forwarder_event_step registered jq state
            output = (.spawnedDecorator d resp, st') →
        resp.id = some req.rpc.call_id ∧
          resp.method = output.data.method)) := by
  constructor
  · intro output key
    unfold BrokerOutputForwarder.get_event
    cases hm : output.data.method with
    | none => simp
    | some e =>
      cases hh : (splitChar '.' e).head? with
      | none => simp [hh]
      | some tok => simp [hh]
  · intro registered jq state output key req hkey hstate
    have hred : BrokerOutputForwarder.start_forwarder_event_step registered
        jq state output =
        (BrokerOutputForwarder.forwarder_event_dispatch registered jq req
          output, (EndpointBroker.get_request state key).2) := by
      unfold BrokerOutputForwarder.start_forwarder_event_step
      rw [hkey]
      rcases hp : EndpointBroker.get_request state key with ⟨fst, st2⟩
      have hfst : fst = .ok req := by
        have h1 := get_request_found_fst state key req hstate
        rw [hp] at h1
        exact h1
      subst hfst
      simp only [hp]
    refine ⟨?_, ?_, ?_⟩
    · intro resp st' hstep
      rw [hred] at hstep
      exact dispatch_delivered_fields registered jq req output resp
        (congrArg Prod.fst hstep)
    · intro d resp st' hstep
      rw [hred] at hstep
      exact dispatch_event_handler_fields registered jq req output d resp
        (congrArg Prod.fst hstep)
    · intro d resp st' hstep
      rw [hred] at hstep
      exact dispatch_decorator_fields registered jq req output d resp
        (congrArg Prod.fst hstep)

/-- Subscription request stored under registry key 42 for the C8 witness
(its own call_id is 7, deliberately different from the backend envelope's
`id` of 999). -/
def c8Req : BrokerRequest :=
  { rpc := { session_id := "s8", request_id := "q8", method := "events.onFoo",
             call_id := 7, params_json := .empty,
             is_listen := true, is_unlisten := false },
    rule := { «alias» := "Foo.1.changed" } }

/-- Request registry holding `c8Req` under key 42. -/
def c8State : RequestMap := fun k => if k = 42 then some c8Req else none

/-- Backend event frame `method = "42.fooChanged"` whose envelope id (999)
differs from the subscription key (42). -/
def c8Output : BrokerOutput :=
  { data := { jsonrpc := "2.0", id := some 999, result := some (.num 1),
              error := none, method := some "42.fooChanged",
              params := none } }

/-- Like `c8Req` but its rule names the registered decorator `dec`. -/
def c8DecReq : BrokerRequest :=
  { rpc := { session_id := "s8d", request_id := "q8d",
             method := "events.onFoo", call_id := 7, params_json := .empty,
             is_listen := true, is_unlisten := false },
    rule := { «alias» := "Foo.1.changed",
              transform := { event_decorator_method := some "dec" } } }

/-- Request registry holding `c8DecReq` under key 42. -/
def c8DecState : RequestMap := fun k => if k = 42 then some c8DecReq else none

/-- C8 counterexample: with a registered event decorator, the event is
handed to the decorator task, whose delivered response keeps the backend
method `"42.fooChanged"` — it is not rewritten to the client-facing
`"events.onFoo"` (the task sets only `response.id`,
`endpoint_broker.rs:1094-1118`), refuting the claim's universal
method-rewrite. -/
theorem c8_decorator_counterexample :
    (BrokerOutputForwarder.start_forwarder_event_step (fun _ => true) jqId
        c8DecState c8Output).1 =
      .spawnedDecorator "dec" { c8Output.data with id := some 7 } ∧
    ({ c8Output.data with id := some 7 } : JsonRpcApiResponse).method =
      some "42.fooChanged" ∧
    c8DecReq.rpc.method = "events.onFoo" ∧
    some "42.fooChanged" ≠ (some "events.onFoo" : Option String) := by
  refine ⟨rfl, rfl, rfl, ?_⟩
  intro h
  exact absurd (Option.some.inj h) (by decide)

/-- Witness for C8 (amended): the concrete event keyed by the method's
first token (42, not the envelope id 999) is delivered, and the theorem
yields the reassigned id (7) and the rewritten client-facing method. -/
theorem c8_event_routing_amended_witness :
    ({ c8Output.data with
        id := some 7,
        method := some "events.onFoo" } : JsonRpcApiResponse).id =
      some c8Req.rpc.call_id ∧
    ({ c8Output.data with
        id := some 7,
        method := some "events.onFoo" } : JsonRpcApiResponse).method =
      some c8Req.rpc.method :=
  ((c8_event_routing_amended.2 (fun _ => false) jqId c8State c8Output 42
      c8Req rfl rfl).1
    { c8Output.data with id := some 7, method := some "events.onFoo" }
    c8State rfl)

/-- Listen request with invalid non-empty `params_json` for C10: the
subscription branch of `prepare_request` never parses the params, so the
request reaches the composite-registration block and its `.unwrap()`s. -/
def c10ListenReq : BrokerRequest :=
  { rpc := { session_id := "sX", request_id := "qX", method := "events.onTen",
             call_id := 61, params_json := .invalid,
             is_listen := true, is_unlisten := false },
    rule := { «alias» := "Plugin.method" } }

/-- C10 counterexample: a listen request with a non-empty `params_json`
that is not valid JSON passes `prepare_request` (which does not parse
params for subscriptions) and then panics on the bare
`serde_json::from_str(..).unwrap()` of the composite-registration block —
the accesses are not guarded as the claim states. -/
theorem c10_composite_panic_counterexample :
    ThunderBroker.thunder_send_step jqId emptySubMap c10ListenReq =
      some (.panicked, (ThunderBroker.subscribe emptySubMap c10ListenReq).2) ∧
    c10ListenReq.rpc.params_json.isEmptyStr = false := ⟨rfl, rfl⟩

/-- C10 (amended): the composite-registration block is shielded by
`prepare_request` but not internally guarded: when `prepare_request` fails
(as it does for a non-subscription request whose `params_json` is not a
JSON array) the driver only sends an error response and the unwraps are
never reached; but whenever `prepare_request` succeeds — always for
listen/unlisten requests, whose params it never parses — the send path
panics exactly when the non-empty `params_json` does not parse as a JSON
array all of whose elements are JSON objects. -/
theorem c10_composite_guard_amended (jq : Jq) (m : SubMap)
    (request : BrokerRequest) :
    (∀ e m', ThunderBroker.prepare_request jq m request =
        some (.error e, m') →
      ThunderBroker.thunder_send_step jq m request =
        some (.errorSent e, m')) ∧
    (∀ frames m',
      ThunderBroker.prepare_request jq m request = some (.ok frames, m') →
      (ThunderBroker.thunder_send_step jq m request =
          some (.panicked, m') ↔
        ¬(request.rpc.params_json.isEmptyStr = true ∨
          ∃ xs, request.rpc.params_json.parseValue = some (Json.arr xs) ∧
            ∀ x ∈ xs, ∃ fs, x = Json.obj fs))) := by
  constructor
  · intro e m' h
    unfold ThunderBroker.thunder_send_step
    rw [h]
  · intro frames m' h
    unfold ThunderBroker.thunder_send_step
    rw [h, ← composite_registration_step_isSome request]
    cases hc : ThunderBroker.composite_registration_step request with
    | none => simp [hc]
    | some regs => simp [hc]

/-- Witness for C10 (amended): at the concrete listen request with invalid
params the theorem yields the panic outcome. -/
theorem c10_composite_guard_witness :
    ThunderBroker.thunder_send_step jqId emptySubMap c10ListenReq =
      some (.panicked,
        (ThunderBroker.subscribe emptySubMap c10ListenReq).2) := by
  have h := (c10_composite_guard_amended jqId emptySubMap c10ListenReq).2
    [ThunderBroker.register_frame "Plugin" "method" 61]
    (ThunderBroker.subscribe emptySubMap c10ListenReq).2 rfl
  refine h.mpr ?_
  rintro (habs | ⟨xs, hxs, -⟩)
  · exact Bool.noConfusion habs
  · exact Option.noConfusion hxs
